import Mathlib

/-!
Verification of the agent-registry program
(programs/agent-registry/src/lib.rs), a shallow embedding in Lean 4.

The program stores one `AgentState` record per registered agent and
exposes two instruction handlers:
  * `register_agent` — creates the record (Anchor `init` zero-initializes
    the account data; the handler then sets `authority` and `metadata`);
  * `record_reputation` — gated by the `has_one = authority` constraint,
    adds `delta.score_change` to the stored `reputation_score` with i64
    arithmetic, clamps the result into [0, 10000] and overwrites
    `last_event` with the delta.

Machine integers: `i64` values are modelled as `Int`, with i64 addition
made explicit as reduction modulo 2^64 into [-2^63, 2^63) (release-mode
wrapping semantics) via `wrap64`.  Public keys are opaque 32-byte values
with decidable equality; they are modelled abstractly as `Nat`.
Fixed-size byte arrays `[u8; N]` are modelled as `List Nat`.
-/

namespace AgentRegistry

/-- Opaque public key (Solana `Pubkey`, 32 bytes); modelled abstractly as a
value with decidable equality. -/
abbrev Pubkey := Nat

/-- Rust struct `AgentMetadata { capabilities_uri: [u8; 64], disclosure: u8 }`. -/
structure AgentMetadata where
  capabilities_uri : List Nat
  disclosure : Nat
deriving DecidableEq, Repr

/-- Size constant `AgentMetadata::LEN = 64 + 1`. -/
def AgentMetadata.LEN : Nat := 64 + 1

/-- Rust struct `ReputationDelta { score_change: i64, reference: [u8; 32] }`. -/
structure ReputationDelta where
  score_change : Int
  reference : List Nat
deriving DecidableEq, Repr

/-- Size constant `ReputationDelta::LEN = 8 + 32`. -/
def ReputationDelta.LEN : Nat := 8 + 32

/-- Rust struct `AgentState { authority, metadata, reputation_score: i64, last_event }`. -/
structure AgentState where
  authority : Pubkey
  metadata : AgentMetadata
  reputation_score : Int
  last_event : ReputationDelta
deriving DecidableEq, Repr

/-- Size constant `AgentState::LEN = 8 + 32 + AgentMetadata::LEN + 8 + ReputationDelta::LEN`
(8-byte Anchor discriminator header + 32-byte authority + metadata +
8-byte score + delta). -/
def AgentState.LEN : Nat := 8 + 32 + AgentMetadata.LEN + 8 + ReputationDelta.LEN

/-- The all-zero `ReputationDelta` (the `Default` derive: `score_change = 0`,
`reference = [0; 32]`). -/
def ReputationDelta.zero : ReputationDelta :=
  { score_change := 0, reference := List.replicate 32 0 }

/-- The all-zero `AgentMetadata` (the `Default` derive). -/
def AgentMetadata.zero : AgentMetadata :=
  { capabilities_uri := List.replicate 64 0, disclosure := 0 }

/-- The zero-initialized `AgentState` an Anchor `init` account holds before
the handler body runs (`#[derive(Default)]`: all fields zero). -/
def AgentState.zeroInit : AgentState :=
  { authority := 0
    metadata := AgentMetadata.zero
    reputation_score := 0
    last_event := ReputationDelta.zero }

/-- Error taxonomy of the spec (§7): the `init` constraint failing on an
occupied slot surfaces as `AlreadyExists`; the `has_one = authority`
constraint failing surfaces as `Unauthorized`. -/
inductive RegistryError where
  | Unauthorized
  | AlreadyExists
  | NotFound
  | AllocationFailed
deriving DecidableEq, Repr

/-- Reduce an integer into the i64 range [-2^63, 2^63): the value an i64
addition actually stores when the mathematical result is out of range
(twos-complement wrap-around). -/
def wrap64 (x : Int) : Int := (x + 2 ^ 63) % 2 ^ 64 - 2 ^ 63

/-- Addition on i64: the mathematical sum reduced to the 64-bit signed width. -/
def i64add (a b : Int) : Int := wrap64 (a + b)

/-- Rust `i64::clamp(lo, hi)`: `if self < lo { lo } else if self > hi { hi }
else { self }`. -/
def i64clamp (x lo hi : Int) : Int := if x < lo then lo else if x > hi then hi else x

/-- The score computation of `record_reputation`:
`(agent.reputation_score + delta.score_change).clamp(0, 10_000)`. -/
def newScore (score change : Int) : Int := i64clamp (i64add score change) 0 10000

/-- Handler `register_agent`: the `init` constraint hands the handler a
zero-initialized account; the handler sets `authority` to the key of the signer
and `metadata` to the supplied argument, leaving `reputation_score` and
`last_event` at their zero-initialized values. -/
def register_agent (caller : Pubkey) (metadata : AgentMetadata) : AgentState :=
  { AgentState.zeroInit with authority := caller, metadata := metadata }

/-- Handler `record_reputation`: the `has_one = authority` constraint on
`RecordReputation` requires the signing `authority` account to equal the
stored `agent.authority`, failing the instruction before the handler body
otherwise; the body clamps the updated score into [0, 10000] and overwrites
`last_event` with the delta. -/
def record_reputation (agent : AgentState) (caller : Pubkey)
    (delta : ReputationDelta) : Except RegistryError AgentState :=
  if caller = agent.authority then
    Except.ok { agent with
      reputation_score := newScore agent.reputation_score delta.score_change
      last_event := delta }
  else
    Except.error RegistryError.Unauthorized

/-- Observable record state after a `record_reputation` call: an instruction
that fails leaves the account exactly as it was (atomicity of the
persistence layer — a failed call commits nothing). -/
def stateAfter (agent : AgentState) (caller : Pubkey)
    (delta : ReputationDelta) : AgentState :=
  match record_reputation agent caller delta with
  | Except.ok st => st
  | Except.error _ => agent

/-- Slot-addressed persistent store: the persistence layer keyed by account
identity. -/
def Registry := Nat → Option AgentState

/-- Registration seen at the persistence layer: the `init` constraint
fails with `AlreadyExists` when the target slot already holds a record, and
commits the freshly created record otherwise.  Returns the call result
together with the (possibly updated) store. -/
def registerAgentAt (reg : Registry) (slot : Nat) (caller : Pubkey)
    (metadata : AgentMetadata) : Except RegistryError Unit × Registry :=
  match reg slot with
  | some _ => (Except.error RegistryError.AlreadyExists, reg)
  | none =>
      (Except.ok (),
        fun k => if k = slot then some (register_agent caller metadata) else reg k)

/-- States of one agent record reachable by the program: created once by
`register_agent`, then mutated only by successful `record_reputation`
calls. -/
inductive Reachable : AgentState → Prop where
  | registered (caller : Pubkey) (metadata : AgentMetadata) :
      Reachable (register_agent caller metadata)
  | step (st : AgentState) (caller : Pubkey) (delta : ReputationDelta)
      (st' : AgentState) : Reachable st →
      record_reputation st caller delta = Except.ok st' → Reachable st'

/-! ### Helper lemmas -/

/-- Values already inside the i64 range are fixed points of `wrap64`. -/
theorem wrap64_eq_self (x : Int) (hlo : -(2 ^ 63) ≤ x) (hhi : x < 2 ^ 63) :
    wrap64 x = x := by
  unfold wrap64
  have h1 : (0 : Int) ≤ x + 2 ^ 63 := by
    have : ((2 : Int) ^ 63) = 9223372036854775808 := by norm_num
    omega
  have h2 : x + 2 ^ 63 < 2 ^ 64 := by
    have e1 : ((2 : Int) ^ 63) = 9223372036854775808 := by norm_num
    have e2 : ((2 : Int) ^ 64) = 18446744073709551616 := by norm_num
    omega
  rw [Int.emod_eq_of_lt h1 h2]
  ring

/-- The clamp always lands inside its bounds. -/
theorem i64clamp_mem (x lo hi : Int) (h : lo ≤ hi) :
    lo ≤ i64clamp x lo hi ∧ i64clamp x lo hi ≤ hi := by
  unfold i64clamp
  split_ifs <;> omega

/-- Function `newScore` always lands in [0, 10000], whatever the (possibly wrapped)
sum was. -/
theorem newScore_mem (score change : Int) :
    0 ≤ newScore score change ∧ newScore score change ≤ 10000 :=
  i64clamp_mem _ 0 10000 (by norm_num)

/-- When the mathematical sum fits in i64, `newScore` is the mathematical
clamp `max 0 (min (score + change) 10000)`. -/
theorem newScore_eq_clamp (score change : Int)
    (hlo : -(2 ^ 63) ≤ score + change) (hhi : score + change < 2 ^ 63) :
    newScore score change = max 0 (min (score + change) 10000) := by
  unfold newScore i64clamp i64add
  rw [wrap64_eq_self _ hlo hhi]
  split_ifs <;> omega

/-- A successful `record_reputation` call stores a score inside [0, 10000]
(the clamp bounds hold whatever the i64 sum was). -/
theorem record_reputation_score_mem (agent : AgentState) (caller : Pubkey)
    (delta : ReputationDelta) (st' : AgentState)
    (h : record_reputation agent caller delta = Except.ok st') :
    0 ≤ st'.reputation_score ∧ st'.reputation_score ≤ 10000 := by
  unfold record_reputation at h
  split_ifs at h
  injection h with h
  subst h
  exact newScore_mem agent.reputation_score delta.score_change

/-! ### Concrete inputs used by witnesses and counterexamples -/

/-- A sample metadata value. -/
def mdEx : AgentMetadata := { capabilities_uri := List.replicate 64 3, disclosure := 1 }

/-- A sample 32-byte evidence reference. -/
def refEx : List Nat := List.replicate 32 1

/-- A sample one-record store holding an agent at slot 0. -/
def regEx : Registry :=
  fun k => if k = 0 then some (AgentState.mk 7 mdEx 0 ReputationDelta.zero) else none

/-! ### Claims -/

/-- C1: every agent state reachable from registration — score 0 at creation,
then any sequence of successful `record_reputation` calls with arbitrary
deltas — keeps `reputation_score` within [0, 10000] inclusive. -/
theorem reputation_score_bounds_invariant (st : AgentState) (h : Reachable st) :
    0 ≤ st.reputation_score ∧ st.reputation_score ≤ 10000 := by
  induction h with
  | registered caller metadata => exact ⟨le_rfl, show (0 : Int) ≤ 10000 by norm_num⟩
  | step st caller delta st' hr heq ih =>
      exact record_reputation_score_mem st caller delta st' heq

/-- Witness for C1: a concrete two-call run (register, then a delta of
2^63 - 1) ends at score 10000, inside the bounds. -/
theorem reputation_score_bounds_invariant_witness :
    0 ≤ (AgentState.mk 7 mdEx 10000
          (ReputationDelta.mk (2 ^ 63 - 1) refEx)).reputation_score ∧
    (AgentState.mk 7 mdEx 10000
          (ReputationDelta.mk (2 ^ 63 - 1) refEx)).reputation_score ≤ 10000 :=
  reputation_score_bounds_invariant _
    (Reachable.step (register_agent 7 mdEx) 7 (ReputationDelta.mk (2 ^ 63 - 1) refEx)
      (AgentState.mk 7 mdEx 10000 (ReputationDelta.mk (2 ^ 63 - 1) refEx))
      (Reachable.registered 7 mdEx) (by rfl))

/-- C3: a `record_reputation` call whose caller differs from the stored
`authority` fails with `Unauthorized` and leaves every field of the record
(authority, metadata, reputation_score, last_event) unchanged. -/
theorem record_reputation_unauthorized (agent : AgentState) (caller : Pubkey)
    (delta : ReputationDelta) (h : caller ≠ agent.authority) :
    record_reputation agent caller delta = Except.error RegistryError.Unauthorized ∧
    (stateAfter agent caller delta).authority = agent.authority ∧
    (stateAfter agent caller delta).metadata = agent.metadata ∧
    (stateAfter agent caller delta).reputation_score = agent.reputation_score ∧
    (stateAfter agent caller delta).last_event = agent.last_event := by
  have he : record_reputation agent caller delta
      = Except.error RegistryError.Unauthorized := by
    unfold record_reputation
    rw [if_neg h]
  refine ⟨he, ?_, ?_, ?_, ?_⟩ <;> simp [stateAfter, he]

/-- Witness for C3: caller 8 against stored authority 7 is rejected and the
record keeps all its fields. -/
theorem record_reputation_unauthorized_witness :
    record_reputation (AgentState.mk 7 mdEx 250 ReputationDelta.zero) 8
        (ReputationDelta.mk 40 refEx) = Except.error RegistryError.Unauthorized ∧
    (stateAfter (AgentState.mk 7 mdEx 250 ReputationDelta.zero) 8
        (ReputationDelta.mk 40 refEx)).authority
      = (AgentState.mk 7 mdEx 250 ReputationDelta.zero).authority ∧
    (stateAfter (AgentState.mk 7 mdEx 250 ReputationDelta.zero) 8
        (ReputationDelta.mk 40 refEx)).metadata
      = (AgentState.mk 7 mdEx 250 ReputationDelta.zero).metadata ∧
    (stateAfter (AgentState.mk 7 mdEx 250 ReputationDelta.zero) 8
        (ReputationDelta.mk 40 refEx)).reputation_score
      = (AgentState.mk 7 mdEx 250 ReputationDelta.zero).reputation_score ∧
    (stateAfter (AgentState.mk 7 mdEx 250 ReputationDelta.zero) 8
        (ReputationDelta.mk 40 refEx)).last_event
      = (AgentState.mk 7 mdEx 250 ReputationDelta.zero).last_event :=
  record_reputation_unauthorized (AgentState.mk 7 mdEx 250 ReputationDelta.zero) 8
    (ReputationDelta.mk 40 refEx) (by decide)

/-- C4: a successful `register_agent` call yields a record whose authority is
the caller key, whose metadata is exactly the supplied value, whose score is
0 and whose `last_event` is the zero-valued delta (score_change 0, all-zero
32-byte reference). -/
theorem register_agent_creates_fresh_record (caller : Pubkey)
    (metadata : AgentMetadata) :
    (register_agent caller metadata).authority = caller ∧
    (register_agent caller metadata).metadata = metadata ∧
    (register_agent caller metadata).reputation_score = 0 ∧
    (register_agent caller metadata).last_event.score_change = 0 ∧
    (register_agent caller metadata).last_event.reference = List.replicate 32 0 :=
  ⟨rfl, rfl, rfl, rfl, rfl⟩

/-- C6: after every successful `record_reputation` call, `last_event` equals
exactly the delta just supplied, including when the score was already at a
boundary and did not change. -/
theorem record_reputation_last_event_overwrite (agent : AgentState)
    (caller : Pubkey) (delta : ReputationDelta) (st' : AgentState)
    (h : record_reputation agent caller delta = Except.ok st') :
    st'.last_event = delta := by
  unfold record_reputation at h
  split_ifs at h
  injection h with h
  subst h
  rfl

/-- Witness for C6: at the ceiling (score 10000, delta +5 leaves the score
at 10000) the delta is still written to `last_event`. -/
theorem record_reputation_last_event_overwrite_witness :
    (AgentState.mk 7 mdEx 10000 (ReputationDelta.mk 5 refEx)).last_event
      = ReputationDelta.mk 5 refEx :=
  record_reputation_last_event_overwrite
    (AgentState.mk 7 mdEx 10000 ReputationDelta.zero) 7 (ReputationDelta.mk 5 refEx)
    (AgentState.mk 7 mdEx 10000 (ReputationDelta.mk 5 refEx)) (by rfl)

/-- C7: a successful `record_reputation` call never changes `authority` or
`metadata`; they keep their creation-time values (and `register_agent` and
`record_reputation` are the only two handlers the program module declares). -/
theorem record_reputation_preserves_authority_metadata (agent : AgentState)
    (caller : Pubkey) (delta : ReputationDelta) (st' : AgentState)
    (h : record_reputation agent caller delta = Except.ok st') :
    st'.authority = agent.authority ∧ st'.metadata = agent.metadata := by
  unfold record_reputation at h
  split_ifs at h
  injection h with h
  subst h
  exact ⟨rfl, rfl⟩

/-- Witness for C7: a concrete successful mutation keeps authority 7 and the
sample metadata. -/
theorem record_reputation_preserves_authority_metadata_witness :
    (AgentState.mk 7 mdEx 300 (ReputationDelta.mk 300 refEx)).authority
        = (AgentState.mk 7 mdEx 0 ReputationDelta.zero).authority ∧
    (AgentState.mk 7 mdEx 300 (ReputationDelta.mk 300 refEx)).metadata
        = (AgentState.mk 7 mdEx 0 ReputationDelta.zero).metadata :=
  record_reputation_preserves_authority_metadata
    (AgentState.mk 7 mdEx 0 ReputationDelta.zero) 7 (ReputationDelta.mk 300 refEx)
    (AgentState.mk 7 mdEx 300 (ReputationDelta.mk 300 refEx)) (by rfl)

/-- C9: the declared record size `AgentState::LEN` is the fixed layout
8-byte header + 32-byte authority + 65-byte metadata (64-byte capabilities
buffer + 1 disclosure byte) + 8-byte score + 40-byte delta (8-byte
score_change + 32-byte reference) = 153 bytes. -/
theorem AgentState_LEN_layout :
    AgentState.LEN = 153 ∧
    AgentState.LEN = 8 + 32 + 65 + 8 + 40 ∧
    AgentMetadata.LEN = 64 + 1 ∧
    ReputationDelta.LEN = 8 + 32 :=
  ⟨rfl, rfl, rfl, rfl⟩

/-- C2 counterexample: the claim fails at stored score 10000 (inside
[0, 10000]) and delta.score_change = 2^63 - 1 (inside the full i64 range):
the i64 addition wraps — it differs from the mathematical sum — and the
call then clamps the wrapped negative value to 0, not to the 10000 the
mathematical clamp would give. -/
theorem record_reputation_full_i64_delta_wraps :
    i64add 10000 (2 ^ 63 - 1) ≠ 10000 + (2 ^ 63 - 1) ∧
    i64add 10000 (2 ^ 63 - 1) = 9999 - 2 ^ 63 ∧
    (stateAfter (AgentState.mk 7 mdEx 10000 ReputationDelta.zero) 7
        (ReputationDelta.mk (2 ^ 63 - 1) refEx)).reputation_score = 0 ∧
    max 0 (min (10000 + (2 ^ 63 - 1)) 10000) = (10000 : Int) := by
  refine ⟨by decide, by decide, by rfl, by decide⟩

/-- C2 (amended): for a stored score in [0, 10000] and any
delta.score_change at most 2^63 - 1 - 10000 (in particular for the entire
realistic range), the i64 addition does not wrap — it equals the
mathematical sum — and an authorized call succeeds, the clamp absorbing
out-of-range results silently. -/
theorem record_reputation_no_wrap_bounded_delta (agent : AgentState)
    (caller : Pubkey) (delta : ReputationDelta)
    (hauth : caller = agent.authority)
    (h0 : 0 ≤ agent.reputation_score) (h1 : agent.reputation_score ≤ 10000)
    (hdlo : -(2 ^ 63) ≤ delta.score_change)
    (hdhi : delta.score_change ≤ 2 ^ 63 - 1 - 10000) :
    i64add agent.reputation_score delta.score_change
      = agent.reputation_score + delta.score_change ∧
    record_reputation agent caller delta = Except.ok { agent with
      reputation_score :=
        max 0 (min (agent.reputation_score + delta.score_change) 10000)
      last_event := delta } := by
  have hlo : -(2 ^ 63) ≤ agent.reputation_score + delta.score_change := by
    have e : ((2 : Int) ^ 63) = 9223372036854775808 := by norm_num
    omega
  have hhi : agent.reputation_score + delta.score_change < 2 ^ 63 := by
    have e : ((2 : Int) ^ 63) = 9223372036854775808 := by norm_num
    omega
  constructor
  · unfold i64add
    exact wrap64_eq_self _ hlo hhi
  · unfold record_reputation
    rw [if_pos hauth, newScore_eq_clamp _ _ hlo hhi]

/-- Witness for the amended C2: score 9999 with delta 50 adds without
wrapping and the authorized call succeeds, clamping to 10000. -/
theorem record_reputation_no_wrap_bounded_delta_witness :
    i64add 9999 50 = 9999 + 50 ∧
    record_reputation (AgentState.mk 7 mdEx 9999 ReputationDelta.zero) 7
        (ReputationDelta.mk 50 refEx)
      = Except.ok { AgentState.mk 7 mdEx 9999 ReputationDelta.zero with
          reputation_score := max 0 (min ((9999 : Int) + 50) 10000)
          last_event := ReputationDelta.mk 50 refEx } :=
  record_reputation_no_wrap_bounded_delta
    (AgentState.mk 7 mdEx 9999 ReputationDelta.zero) 7 (ReputationDelta.mk 50 refEx)
    rfl (by norm_num) (by norm_num) (by norm_num) (by norm_num)

/-- C5: an authorized `record_reputation` whose i64 sum is in range stores
`clamp(old_score + score_change, 0, 10000)`, saturating at the boundaries;
moreover `newScore 9999 50 = 10000` and `newScore 5 (-100) = 0` (the two
saturation cases of spec property P2). -/
theorem record_reputation_clamp_spec (agent : AgentState) (caller : Pubkey)
    (delta : ReputationDelta) (hauth : caller = agent.authority)
    (hlo : -(2 ^ 63) ≤ agent.reputation_score + delta.score_change)
    (hhi : agent.reputation_score + delta.score_change < 2 ^ 63) :
    (stateAfter agent caller delta).reputation_score
      = max 0 (min (agent.reputation_score + delta.score_change) 10000) ∧
    newScore 9999 50 = 10000 ∧ newScore 5 (-100) = 0 := by
  refine ⟨?_, by decide, by decide⟩
  subst hauth
  simp only [stateAfter, record_reputation, if_pos rfl]
  exact newScore_eq_clamp _ _ hlo hhi

/-- Witness for C5: the boundary case 9999 + 50, clamp lands at 10000. -/
theorem record_reputation_clamp_spec_witness :
    (stateAfter (AgentState.mk 7 mdEx 9999 ReputationDelta.zero) 7
        (ReputationDelta.mk 50 refEx)).reputation_score
      = max 0 (min ((9999 : Int) + 50) 10000) ∧
    newScore 9999 50 = 10000 ∧ newScore 5 (-100) = 0 :=
  record_reputation_clamp_spec (AgentState.mk 7 mdEx 9999 ReputationDelta.zero) 7
    (ReputationDelta.mk 50 refEx) rfl (by norm_num) (by norm_num)

/-- C8: registering into a slot that already holds a record fails with
`AlreadyExists` and the store — in particular the occupied slot — is left
exactly as it was. -/
theorem registerAgentAt_occupied (reg : Registry) (slot : Nat)
    (caller : Pubkey) (metadata : AgentMetadata) (st0 : AgentState)
    (h : reg slot = some st0) :
    (registerAgentAt reg slot caller metadata).1
      = Except.error RegistryError.AlreadyExists ∧
    (registerAgentAt reg slot caller metadata).2 = reg ∧
    (registerAgentAt reg slot caller metadata).2 slot = some st0 := by
  unfold registerAgentAt
  rw [h]
  exact ⟨rfl, rfl, h⟩

/-- Witness for C8: a second registration at the occupied slot 0 of the
sample store is rejected and the store is untouched. -/
theorem registerAgentAt_occupied_witness :
    (registerAgentAt regEx 0 9 mdEx).1
      = Except.error RegistryError.AlreadyExists ∧
    (registerAgentAt regEx 0 9 mdEx).2 = regEx ∧
    (registerAgentAt regEx 0 9 mdEx).2 0
      = some (AgentState.mk 7 mdEx 0 ReputationDelta.zero) :=
  registerAgentAt_occupied regEx 0 9 mdEx
    (AgentState.mk 7 mdEx 0 ReputationDelta.zero) rfl

/-- C10: with the stored score in [0, 10000] and both i64 sums in range, the
score update is monotone in the delta; a non-negative score_change never
decreases the stored score and a non-positive one never increases it. -/
theorem newScore_monotone (s c1 c2 : Int) (hs0 : 0 ≤ s) (hs1 : s ≤ 10000)
    (h1lo : -(2 ^ 63) ≤ s + c1) (h1hi : s + c1 < 2 ^ 63)
    (h2lo : -(2 ^ 63) ≤ s + c2) (h2hi : s + c2 < 2 ^ 63)
    (hc : c1 ≤ c2) :
    newScore s c1 ≤ newScore s c2 ∧
    (0 ≤ c1 → s ≤ newScore s c1) ∧
    (c1 ≤ 0 → newScore s c1 ≤ s) := by
  rw [newScore_eq_clamp s c1 h1lo h1hi, newScore_eq_clamp s c2 h2lo h2hi]
  refine ⟨?_, ?_, ?_⟩ <;> intros <;> omega

/-- Witness for C10: at score 5, a delta of -100 yields no more than a delta
of 50 does; the -100 delta never raises the score above 5. -/
theorem newScore_monotone_witness :
    newScore 5 (-100) ≤ newScore 5 50 ∧
    (0 ≤ (-100 : Int) → (5 : Int) ≤ newScore 5 (-100)) ∧
    ((-100 : Int) ≤ 0 → newScore 5 (-100) ≤ 5) :=
  newScore_monotone 5 (-100) 50 (by norm_num) (by norm_num) (by norm_num)
    (by norm_num) (by norm_num) (by norm_num) (by norm_num)

end AgentRegistry
